import Mathlib

/-!
# OpticalFlow base class (libraries/AP_OpticalFlow/OpticalFlow.h)

A shallow embedding of the `OpticalFlow` base class: the object is a record of
its data members, every member function is a function on that record, and the
two virtual hooks `init()` / `update()` are embedded with the bodies the base
class gives them.

Machine integers are `Nat` / `Int`; the ranges of the C++ types are collected
in `WellFormed`.  No member function of the class performs arithmetic, so no
reduction modulo `2^w` occurs anywhere.
-/

namespace AP_OpticalFlow

/-! ## Data model -/

/-- The C++ scalar type `float` (IEEE-754 binary32), represented by its 32-bit
pattern.  The class stores and hands back such values and never computes with
them, so equality here is identity of the stored representation. -/
abbrev float := Nat

/-- Modelled from the spec: `Vector2f` is declared in `AP_Math.h`, which is not
part of the sources at hand; the spec calls `flowRate` / `bodyRate` a
"2D vector (rad/s)", i.e. two `float` components. -/
structure Vector2f where
  x : float
  y : float
  deriving DecidableEq, Repr

/-- The vector `(0.0f, 0.0f)`. -/
def Vector2f.zero : Vector2f := ⟨0, 0⟩

/-- Modelled from the spec: `AP_Int8` is declared by the parameter library
(`AP_Param`), which is not part of the sources at hand; the spec describes the
parameter as an "8-bit integer flag".  The model is the stored `int8_t` value,
which is what the conversion operator of the parameter object yields. -/
abbrev AP_Int8 := Int

/-- Modelled from the spec: `AP_Int16` is declared by the parameter library
(`AP_Param`), which is not part of the sources at hand; the spec describes the
scale factors as "signed 16-bit, parts-per-thousand". -/
abbrev AP_Int16 := Int

/-- Source: `struct AP_OpticalFlow_Flags { uint8_t healthy : 1; }`. -/
structure AP_OpticalFlow_Flags where
  /-- Field `uint8_t healthy : 1` - true if sensor is healthy -/
  healthy : Nat
  deriving DecidableEq, Repr

/-- The data members of `class OpticalFlow`, in declaration order.  The type of
the attitude source (`AP_AHRS`, from `AP_AHRS.h`) is a parameter: the class
only holds a reference to it. -/
structure OpticalFlow (AP_AHRS : Type) where
  /-- Member `struct AP_OpticalFlow_Flags _flags` -/
  _flags : AP_OpticalFlow_Flags
  /-- Member `const AP_AHRS &_ahrs` - ahrs object -/
  _ahrs : AP_AHRS
  /-- Member `AP_Int8 _enabled` - enabled/disabled flag -/
  _enabled : AP_Int8
  /-- Member `AP_Int16 _flowScalerX` - X axis flow scale factor correction -/
  _flowScalerX : AP_Int16
  /-- Member `AP_Int16 _flowScalerY` - Y axis flow scale factor correction -/
  _flowScalerY : AP_Int16
  /-- Member `uint8_t _device_id` - device id -/
  _device_id : Nat
  /-- Member `uint8_t _surface_quality` - image quality -/
  _surface_quality : Nat
  /-- Member `Vector2f _flowRate` - optical flow angular rate in rad/sec -/
  _flowRate : Vector2f
  /-- Member `Vector2f _bodyRate` - body inertial angular rate in rad/sec -/
  _bodyRate : Vector2f
  /-- Member `uint32_t _last_update` - millis() time of last update -/
  _last_update : Nat
  deriving DecidableEq, Repr

variable {AP_AHRS : Type}

/-- The value ranges of the C++ member types. -/
def WellFormed (s : OpticalFlow AP_AHRS) : Prop :=
  s._flags.healthy < 2 ∧
  (-128 ≤ s._enabled ∧ s._enabled ≤ 127) ∧
  (-32768 ≤ s._flowScalerX ∧ s._flowScalerX ≤ 32767) ∧
  (-32768 ≤ s._flowScalerY ∧ s._flowScalerY ≤ 32767) ∧
  s._device_id < 256 ∧
  s._surface_quality < 256 ∧
  (s._flowRate.x < 2 ^ 32 ∧ s._flowRate.y < 2 ^ 32) ∧
  (s._bodyRate.x < 2 ^ 32 ∧ s._bodyRate.y < 2 ^ 32) ∧
  s._last_update < 2 ^ 32

instance (s : OpticalFlow AP_AHRS) : Decidable (WellFormed s) := by
  unfold WellFormed
  infer_instance

/-! ## Member functions -/

namespace OpticalFlow

/-- Source: `virtual void init() {}` -/
def init (s : OpticalFlow AP_AHRS) : OpticalFlow AP_AHRS := s

/-- Source: `bool enabled() const { return _enabled; }` - the stored `int8_t` is
converted to `bool`, i.e. compared against zero. -/
def enabled (s : OpticalFlow AP_AHRS) : Bool := s._enabled != 0

/-- Source: `bool healthy() const { return _flags.healthy; }` - the one-bit field is
converted to `bool`, i.e. compared against zero. -/
def healthy (s : OpticalFlow AP_AHRS) : Bool := s._flags.healthy != 0

/-- Source: `virtual void update() {}` -/
def update (s : OpticalFlow AP_AHRS) : OpticalFlow AP_AHRS := s

/-- Source: `uint8_t quality() const { return _surface_quality; }` -/
def quality (s : OpticalFlow AP_AHRS) : Nat := s._surface_quality

/-- Source: `const Vector2f& flowRate() const { return _flowRate; }` -/
def flowRate (s : OpticalFlow AP_AHRS) : Vector2f := s._flowRate

/-- Source: `const Vector2f& bodyRate() const { return _bodyRate; }` -/
def bodyRate (s : OpticalFlow AP_AHRS) : Vector2f := s._bodyRate

/-- Source: `uint8_t device_id() const { return _device_id; }` -/
def device_id (s : OpticalFlow AP_AHRS) : Nat := s._device_id

/-- Source: `uint32_t last_update() const { return _last_update; }` -/
def last_update (s : OpticalFlow AP_AHRS) : Nat := s._last_update

end OpticalFlow

/-! ## Calls and call sequences -/

/-- The two non-`const` public member functions (the virtual hooks). -/
inductive Hook where
  | init
  | update
  deriving DecidableEq, Repr

/-- The state of the object after one call of a hook. -/
def Hook.call (h : Hook) (s : OpticalFlow AP_AHRS) : OpticalFlow AP_AHRS :=
  match h with
  | .init => s.init
  | .update => s.update

/-- The state of the object after a finite sequence of hook calls, first call
first. -/
def run (calls : List Hook) (s : OpticalFlow AP_AHRS) : OpticalFlow AP_AHRS :=
  calls.foldl (fun st h => h.call st) s

/-- The state after `n` consecutive calls of `update()`. -/
def updates (n : Nat) (s : OpticalFlow AP_AHRS) : OpticalFlow AP_AHRS :=
  run (List.replicate n Hook.update) s

/-- The seven `const` public member functions. -/
inductive Accessor where
  | enabled
  | healthy
  | quality
  | flowRate
  | bodyRate
  | device_id
  | last_update
  deriving DecidableEq, Repr

/-- The values an accessor can return, by C++ return type. -/
inductive Value where
  | bool (b : Bool)
  | uint8_t (n : Nat)
  | uint32_t (n : Nat)
  | vector2f (v : Vector2f)
  deriving DecidableEq, Repr

/-- One call of an accessor in state-passing style: the value returned and the
state of the object after the call.  All accessors are `const` member
functions and the class has no `mutable` member, so the object is handed back
as it was received. -/
def Accessor.call (a : Accessor) (s : OpticalFlow AP_AHRS) : Value × OpticalFlow AP_AHRS :=
  match a with
  | .enabled => (.bool s.enabled, s)
  | .healthy => (.bool s.healthy, s)
  | .quality => (.uint8_t s.quality, s)
  | .flowRate => (.vector2f s.flowRate, s)
  | .bodyRate => (.vector2f s.bodyRate, s)
  | .device_id => (.uint8_t s.device_id, s)
  | .last_update => (.uint32_t s.last_update, s)

/-! ## Concrete states used as test inputs -/

/-- A state as one successful driver update leaves it: enabled, health bit 1,
`flowRate = (0.01f, -0.02f)` (bit patterns `0x3C23D70A`, `0xBCA3D70A`),
quality 180, timestamp `T1 = 1000` ms. -/
def freshState : OpticalFlow Unit :=
  { _flags := ⟨1⟩, _ahrs := (), _enabled := 1, _flowScalerX := 0, _flowScalerY := 0,
    _device_id := 0, _surface_quality := 180,
    _flowRate := ⟨0x3C23D70A, 0xBCA3D70A⟩, _bodyRate := ⟨0, 0⟩, _last_update := 1000 }

/-- The state `freshState` after the enable parameter alone was set to 0. -/
def disabledHealthyState : OpticalFlow Unit :=
  { freshState with _enabled := 0 }

/-- A disabled sensor that never produced a reading: enable parameter 0, health
bit 0, zero vectors, quality 0, timestamp 0. -/
def idleState : OpticalFlow Unit :=
  { _flags := ⟨0⟩, _ahrs := (), _enabled := 0, _flowScalerX := 0, _flowScalerY := 0,
    _device_id := 0, _surface_quality := 0,
    _flowRate := Vector2f.zero, _bodyRate := Vector2f.zero, _last_update := 0 }

/-- A state with the readings of `freshState` (same `_flowRate`, quality and
timestamp) and different scale factors, body rate, enable parameter and health
bit. -/
def rescaledState : OpticalFlow Unit :=
  { freshState with
    _flags := ⟨0⟩, _enabled := 0, _flowScalerX := 250, _flowScalerY := -400,
    _bodyRate := ⟨0x3F800000, 0x40000000⟩ }

/-! ## Basic facts -/

theorem hook_call_eq (h : Hook) (s : OpticalFlow AP_AHRS) : h.call s = s := by
  cases h <;> rfl

theorem run_eq (calls : List Hook) (s : OpticalFlow AP_AHRS) : run calls s = s := by
  induction calls generalizing s with
  | nil => rfl
  | cons h t ih =>
    show run t (h.call s) = s
    rw [hook_call_eq, ih]

theorem updates_eq (n : Nat) (s : OpticalFlow AP_AHRS) : updates n s = s :=
  run_eq _ s


/-! ## Properties of the base class -/

/-- C1, as stated, fails: in a well-formed state whose healthy flag is set, the
base-class `update()` does not leave `healthy()` false. -/
theorem update_clears_health_counterexample :
    WellFormed freshState ∧ freshState.healthy = true ∧
      ¬ (freshState.update.healthy = false) := by
  decide

/-- C1 (amended): for every state in which the healthy flag is set, the
base-class `update()` leaves `healthy()` true, and `flowRate()`, `quality()` and
`last_update()` return the values they returned before the call. -/
theorem update_retains_health_and_readings (s : OpticalFlow AP_AHRS)
    (h : s.healthy = true) :
    s.update.healthy = true ∧ s.update.flowRate = s.flowRate ∧
      s.update.quality = s.quality ∧ s.update.last_update = s.last_update :=
  ⟨h, rfl, rfl, rfl⟩

theorem update_retains_health_and_readings_witness :
    freshState.healthy = true ∧
      (freshState.update.healthy = true ∧
        freshState.update.flowRate = ⟨0x3C23D70A, 0xBCA3D70A⟩ ∧
        freshState.update.quality = 180 ∧ freshState.update.last_update = 1000) :=
  ⟨by decide, update_retains_health_and_readings freshState (by decide)⟩

/-- C2, as stated, fails: there is a well-formed state with `enabled()` false
and `healthy()` true. -/
theorem disabled_implies_unhealthy_counterexample :
    WellFormed disabledHealthyState ∧
      ¬ (disabledHealthyState.enabled = false → disabledHealthyState.healthy = false) := by
  decide

/-- C2 (amended): `healthy()` reads the health bit alone; for every state with
`enabled()` false, `healthy()` is false exactly when the stored health bit
is 0. -/
theorem disabled_unhealthy_iff_bit_clear (s : OpticalFlow AP_AHRS)
    (_he : s.enabled = false) :
    s.healthy = false ↔ s._flags.healthy = 0 := by
  simp [OpticalFlow.healthy]

theorem disabled_unhealthy_iff_bit_clear_witness :
    idleState.enabled = false ∧ (idleState.healthy = false ↔ idleState._flags.healthy = 0) :=
  ⟨by decide, disabled_unhealthy_iff_bit_clear idleState (by decide)⟩

/-- C3: for every state and every sequence of `update()` calls, each call (the
one following any `n` earlier calls) leaves `flowRate()`, `bodyRate()`,
`quality()` and `last_update()` all equal to their values before that call:
the group is entirely unchanged, never partially updated. -/
theorem update_measurement_group_unchanged (s : OpticalFlow AP_AHRS) (n : Nat) :
    (updates (n + 1) s).flowRate = (updates n s).flowRate ∧
      (updates (n + 1) s).bodyRate = (updates n s).bodyRate ∧
      (updates (n + 1) s).quality = (updates n s).quality ∧
      (updates (n + 1) s).last_update = (updates n s).last_update := by
  simp [updates_eq]

/-- C4: for every state reached by `init()` and every finite sequence of
further `init()` and `update()` calls, `device_id()` returns the value it
returned right after that first `init()`. -/
theorem device_id_fixed_after_init (s : OpticalFlow AP_AHRS) (calls : List Hook) :
    (run calls s.init).device_id = s.init.device_id := by
  rw [run_eq]

/-- C5: for every state and every sequence of `update()` calls, `last_update()`
after each call (the one following any `n` earlier calls) is at least its
value before that call. -/
theorem last_update_nondecreasing (s : OpticalFlow AP_AHRS) (n : Nat) :
    (updates n s).last_update ≤ (updates (n + 1) s).last_update := by
  simp [updates_eq]

/-- C6: for every state, the accessors return exactly the stored fields
(`quality()` the stored quality, `flowRate()` / `bodyRate()` the stored
vectors, `device_id()` the stored id, `last_update()` the stored timestamp,
`healthy()` true when the health bit is 1), and a call of any accessor hands
the state back unchanged. -/
theorem accessors_return_stored_fields (s : OpticalFlow AP_AHRS) :
    s.quality = s._surface_quality ∧ s.flowRate = s._flowRate ∧
      s.bodyRate = s._bodyRate ∧ s.device_id = s._device_id ∧
      s.last_update = s._last_update ∧
      (s._flags.healthy = 1 → s.healthy = true) ∧
      (∀ a : Accessor, (a.call s).2 = s) := by
  refine ⟨rfl, rfl, rfl, rfl, rfl, ?_, ?_⟩
  · intro h
    simp [OpticalFlow.healthy, h]
  · intro a
    cases a <;> rfl

theorem accessors_return_stored_fields_witness :
    freshState._flags.healthy = 1 ∧ freshState.quality = 180 ∧
      freshState.flowRate = ⟨0x3C23D70A, 0xBCA3D70A⟩ ∧
      freshState.last_update = 1000 ∧ freshState.healthy = true ∧
      (Accessor.flowRate.call freshState).2 = freshState :=
  have h := accessors_return_stored_fields freshState
  ⟨by decide, h.1, h.2.1, h.2.2.2.2.1, h.2.2.2.2.2.1 (by decide), h.2.2.2.2.2.2 _⟩

/-- C7: for every state with `enabled()` false, `healthy()` false, zero
`flowRate()` and `bodyRate()` and quality 0, and every `n`, after `n` calls of
`update()` the sensor is still disabled, `healthy()` is still false and
`flowRate()`, `bodyRate()`, `quality()` are still the zero vectors and 0. -/
theorem disabled_updates_keep_defaults (s : OpticalFlow AP_AHRS) (n : Nat)
    (he : s.enabled = false) (hh : s.healthy = false)
    (hf : s.flowRate = Vector2f.zero) (hb : s.bodyRate = Vector2f.zero)
    (hq : s.quality = 0) :
    (updates n s).enabled = false ∧ (updates n s).healthy = false ∧
      (updates n s).flowRate = Vector2f.zero ∧
      (updates n s).bodyRate = Vector2f.zero ∧ (updates n s).quality = 0 := by
  rw [updates_eq]
  exact ⟨he, hh, hf, hb, hq⟩

theorem disabled_updates_keep_defaults_witness :
    (idleState.enabled = false ∧ idleState.healthy = false ∧
        idleState.flowRate = Vector2f.zero ∧ idleState.bodyRate = Vector2f.zero ∧
        idleState.quality = 0) ∧
      ((updates 5 idleState).enabled = false ∧ (updates 5 idleState).healthy = false ∧
        (updates 5 idleState).flowRate = Vector2f.zero ∧
        (updates 5 idleState).bodyRate = Vector2f.zero ∧
        (updates 5 idleState).quality = 0) :=
  ⟨by decide,
    disabled_updates_keep_defaults idleState 5 (by decide) (by decide) (by decide)
      (by decide) (by decide)⟩

/-- C8: the base-class `init()` is an idempotent no-op: for every state it
returns the state as it was, applying it twice gives what applying it once
gives, every accessor returns the same value after it as before it, and a
state with `healthy()` false still has `healthy()` false after it. -/
theorem init_idempotent_noop (s : OpticalFlow AP_AHRS) :
    s.init = s ∧ s.init.init = s.init ∧
      (∀ a : Accessor, (a.call s.init).1 = (a.call s).1) ∧
      (s.healthy = false → s.init.healthy = false) :=
  ⟨rfl, rfl, fun _ => rfl, fun h => h⟩

theorem init_idempotent_noop_witness :
    idleState.healthy = false ∧ idleState.init.healthy = false ∧
      idleState.init.init = idleState.init :=
  have h := init_idempotent_noop idleState
  ⟨by decide, h.2.2.2 (by decide), h.2.1⟩

/-- C9: for every value `v` of the stored signed 8-bit enable parameter
(`-128 ≤ v ≤ 127`), `enabled()` equals `v ≠ 0`: only `v = 0` is disabled, and
values such as 2 or -1 are enabled. -/
theorem enabled_iff_param_nonzero (s : OpticalFlow AP_AHRS) (v : Int)
    (hlo : -128 ≤ v) (hhi : v ≤ 127) (hv : s._enabled = v) :
    (-128 ≤ s._enabled ∧ s._enabled ≤ 127) ∧
      s.enabled = decide (v ≠ 0) ∧ (s.enabled = false ↔ v = 0) ∧
      (v = 2 ∨ v = -1 → s.enabled = true) := by
  subst hv
  refine ⟨⟨hlo, hhi⟩, ?_, ?_, ?_⟩
  · by_cases h0 : s._enabled = 0 <;> simp [OpticalFlow.enabled, h0]
  · simp [OpticalFlow.enabled]
  · intro h
    rcases h with h | h <;> simp [OpticalFlow.enabled, h]

theorem enabled_iff_param_nonzero_witness :
    ((-128 : Int) ≤ -1 ∧ (-1 : Int) ≤ 127) ∧
      ({ freshState with _enabled := -1 } : OpticalFlow Unit).enabled = true :=
  have h := enabled_iff_param_nonzero
    ({ freshState with _enabled := -1 } : OpticalFlow Unit) (-1) (by decide) (by decide) rfl
  ⟨h.1, h.2.2.2 (Or.inr rfl)⟩

/-- C10: the read accessors depend on their own stored field alone: two states
that agree on the stored `_flowRate` give the same `flowRate()`, whatever their
scale factors, `_bodyRate`, enable parameter and health bit are; likewise
`quality()` depends on `_surface_quality` alone and `last_update()` on
`_last_update` alone. -/
theorem accessors_depend_on_own_field (s₁ s₂ : OpticalFlow AP_AHRS) :
    (s₁._flowRate = s₂._flowRate → s₁.flowRate = s₂.flowRate) ∧
      (s₁._surface_quality = s₂._surface_quality → s₁.quality = s₂.quality) ∧
      (s₁._last_update = s₂._last_update → s₁.last_update = s₂.last_update) :=
  ⟨fun h => h, fun h => h, fun h => h⟩

theorem accessors_depend_on_own_field_witness :
    (freshState._flowRate = rescaledState._flowRate ∧
        freshState._flowScalerX ≠ rescaledState._flowScalerX ∧
        freshState._flowScalerY ≠ rescaledState._flowScalerY ∧
        freshState._bodyRate ≠ rescaledState._bodyRate ∧
        freshState._enabled ≠ rescaledState._enabled ∧
        freshState._flags ≠ rescaledState._flags) ∧
      freshState.flowRate = rescaledState.flowRate :=
  ⟨by decide, (accessors_depend_on_own_field freshState rescaledState).1 (by decide)⟩

end AP_OpticalFlow
